import Mathlib

/-!
Verification of the disk-image creation core of the `bootloader` crate.

The repository's `src/lib.rs` is the orchestration layer: it builds the
file-to-destination mapping (a `BTreeMap`), resolves the compile-time paths
of auxiliary boot binaries (`env!` variables), invokes the four format
builders (`fat`, `gpt`, `mbr`, `pxe` modules), and wraps any builder error
with an `anyhow` context message.  The four builder modules themselves are
not part of the sources at hand, so they are modelled from the
specification where a claim depends on their behaviour; every such
definition carries a doc comment saying so.

Bytes are modelled as `List Nat`, file-system paths as `String`, and a
file system as a partial map from paths to byte contents.
-/

/-- Byte contents of a file. -/
abbrev Bytes := List Nat

/-- A file system: a partial map from paths to file contents. -/
abbrev FS := String → Option Bytes

/-- An error as produced by the builders and decorated by the orchestrator:
a root cause plus the stack of `anyhow::Context` messages added on the way
out (most recent first), mirroring `anyhow::Error` with `.context(...)`. -/
structure BuildError where
  contexts : List String
  root : String
  deriving DecidableEq, Repr

/-- `Result<T, anyhow::Error>`. -/
abbrev BuildResult (α : Type) := Except BuildError α

/-- `anyhow`'s `.context(msg)`: leaves a success untouched and pushes the
context message onto a failure. -/
def contextualize (msg : String) : BuildResult α → BuildResult α
  | .ok a => .ok a
  | .error e => .error ⟨msg :: e.contexts, e.root⟩

/-- `BTreeMap::insert` on the model of a `BTreeMap<K, V>`: a list of
key-value pairs kept in strictly ascending key order.  Inserting an
existing key replaces its value, as in Rust. -/
def btreeInsert [LinearOrder α] (k : α) (v : β) : List (α × β) → List (α × β)
  | [] => [(k, v)]
  | (k', v') :: rest =>
    if k < k' then (k, v) :: (k', v') :: rest
    else if k = k' then (k, v) :: rest
    else (k', v') :: btreeInsert k v rest

/-- The keys of a modelled `BTreeMap` are in strictly ascending order. -/
def keysSorted [LinearOrder α] (l : List (α × β)) : Prop :=
  l.Chain' (fun a b => a.1 < b.1)

/-- `const KERNEL_FILE_NAME: &str = "kernel-x86_64";` (src/lib.rs line 83). -/
def KERNEL_FILE_NAME : String := "kernel-x86_64"

/-- The three `env!` variables baked into the crate at compile time
(src/lib.rs lines 87, 112, 113, 129).  They are fixed for a given build of
the tool; every public operation receives the same record. -/
structure CompileEnv where
  UEFI_BOOTLOADER_PATH : String
  BIOS_BOOT_SECTOR_PATH : String
  BIOS_SECOND_STAGE_PATH : String

/-- The four builder entry points of the `fat`, `gpt`, `mbr` and `pxe`
modules, abstracted as an interface: `lib.rs` only calls them and wraps
their errors, so the orchestration layer is verified for every
implementation of this record. -/
structure Builders where
  create_fat_filesystem : List (String × String) → String → BuildResult Unit
  create_gpt_disk : String → String → BuildResult Unit
  create_mbr_disk : String → String → String → String → BuildResult Unit
  create_uefi_tftp_folder : String → String → String → BuildResult Unit

/-- `create_boot_partition` (src/lib.rs lines 86-96): build the two-entry
`BTreeMap` and hand it to `fat::create_fat_filesystem`, wrapping a failure
with the context message. -/
def create_boot_partition (b : Builders) (env : CompileEnv)
    (kernel_binary out_path : String) : BuildResult Unit :=
  let bootloader_path := env.UEFI_BOOTLOADER_PATH
  let files : List (String × String) :=
    btreeInsert KERNEL_FILE_NAME kernel_binary
      (btreeInsert "efi/boot/bootx64.efi" bootloader_path [])
  match contextualize "failed to create UEFI FAT filesystem"
      (b.create_fat_filesystem files out_path) with
  | .ok _ => .ok ()
  | .error e => .error e

/-- `create_uefi_disk_image` (src/lib.rs lines 98-106). -/
def create_uefi_disk_image (b : Builders)
    (boot_partition_path out_gpt_path : String) : BuildResult Unit :=
  match contextualize "failed to create UEFI GPT disk image"
      (b.create_gpt_disk boot_partition_path out_gpt_path) with
  | .ok _ => .ok ()
  | .error e => .error e

/-- `create_bios_disk_image` (src/lib.rs lines 108-124). -/
def create_bios_disk_image (b : Builders) (env : CompileEnv)
    (boot_partition_path out_mbr_path : String) : BuildResult Unit :=
  let bootsector_path := env.BIOS_BOOT_SECTOR_PATH
  let second_stage_path := env.BIOS_SECOND_STAGE_PATH
  match contextualize "failed to create BIOS MBR disk image"
      (b.create_mbr_disk bootsector_path second_stage_path
        boot_partition_path out_mbr_path) with
  | .ok _ => .ok ()
  | .error e => .error e

/-- `create_uefi_pxe_tftp_folder` (src/lib.rs lines 128-135). -/
def create_uefi_pxe_tftp_folder (b : Builders) (env : CompileEnv)
    (kernel_binary out_path : String) : BuildResult Unit :=
  let bootloader_path := env.UEFI_BOOTLOADER_PATH
  match contextualize "failed to create UEFI PXE tftp folder"
      (b.create_uefi_tftp_folder bootloader_path kernel_binary out_path) with
  | .ok _ => .ok ()
  | .error e => .error e

/-- The file mapping built by `create_boot_partition` (src/lib.rs lines
89-91), as a standalone definition (definitionally what the function
constructs). -/
def boot_partition_files (env : CompileEnv) (kernel_binary : String) :
    List (String × String) :=
  btreeInsert KERNEL_FILE_NAME kernel_binary
    (btreeInsert "efi/boot/bootx64.efi" env.UEFI_BOOTLOADER_PATH [])

/-! ## Spec-modelled builder modules

The `fat`, `gpt`, `mbr` and `pxe` modules are declared in src/lib.rs
(lines 78-81) but their code is not among the sources; the definitions in
this section are modelled from the specification's component design. -/

/-- Pad a byte string with zero bytes up to the next 512-byte sector
boundary. -/
def padToSector (b : Bytes) : Bytes :=
  b ++ List.replicate ((512 - b.length % 512) % 512) 0

/-- Modelled from the spec: the FAT variant, "a tagged variant over
{FAT12, FAT16, FAT32}". -/
inductive FatType where
  | fat12
  | fat16
  | fat32
  deriving DecidableEq, Repr

/-- Modelled from the spec: "cluster size and FAT width are chosen
consistently with total cluster count (FAT12 <4085 clusters, FAT16
<65525, else FAT32)". -/
def fatTypeForClusters (clusters : Nat) : FatType :=
  if clusters < 4085 then .fat12
  else if clusters < 65525 then .fat16
  else .fat32

/-- Width in bits of one allocation-table entry of a FAT variant. -/
def fatEntryBits : FatType → Nat
  | .fat12 => 12
  | .fat16 => 16
  | .fat32 => 32

/-- Modelled from the spec: the data region of the FAT volume, each file's
contents padded to whole 512-byte sectors (one cluster chain per file,
with single-sector clusters). -/
def fatPayload (files : List (String × Bytes)) : Bytes :=
  files.foldr (fun f acc => padToSector f.2 ++ acc) []

/-- Modelled from the spec: the number of data clusters of the volume. -/
def fatClusterCount (files : List (String × Bytes)) : Nat :=
  (fatPayload files).length / 512

/-- Modelled from the spec: one copy of the allocation table, one entry of
the selected variant's width per cluster, padded to whole sectors. -/
def fatTableBytes (files : List (String × Bytes)) : Bytes :=
  padToSector (List.replicate
    (fatClusterCount files *
      fatEntryBits (fatTypeForClusters (fatClusterCount files)) / 8) 0)

/-- Modelled from the spec: the root directory region, one 32-byte
directory entry slot per file, padded to whole sectors. -/
def fatRootDirBytes (files : List (String × Bytes)) : Bytes :=
  padToSector (List.replicate (files.length * 32) 0)

/-- Modelled from the spec: `fat::create_fat_filesystem` (the `fat` module
is not among the sources).  Given the ordered destination-path → contents
mapping it lays out a FAT volume: boot sector with BPB, two copies of the
allocation table sized by the chosen FAT variant, a root directory region
with one 32-byte entry slot per file, and the data clusters holding each
file padded to whole sectors.  It fails with a collision error when two
destination paths coincide.  Every region is a whole number of 512-byte
sectors. -/
def create_fat_filesystem_model (files : List (String × Bytes)) :
    BuildResult Bytes :=
  if (files.map Prod.fst).Nodup then
    .ok (List.replicate 512 0 ++ fatTableBytes files ++ fatTableBytes files
      ++ fatRootDirBytes files ++ fatPayload files)
  else
    .error ⟨[], "destination path collision"⟩

/-- Modelled from the spec: resolve each (destination, source-path) entry
handed over by the orchestrator to the source file's bytes, failing on the
first unreadable source. -/
def resolveFiles (fs : FS) : List (String × String) →
    BuildResult (List (String × Bytes))
  | [] => .ok []
  | (dest, src) :: rest =>
    match fs src with
    | none => .error ⟨[], "source unreadable"⟩
    | some b =>
      match resolveFiles fs rest with
      | .ok r => .ok ((dest, b) :: r)
      | .error e => .error e

/-- The FAT builder reading its sources from a file system. -/
def create_fat_filesystem_fs (fs : FS) (files : List (String × String)) :
    BuildResult Bytes :=
  match resolveFiles fs files with
  | .ok resolved => create_fat_filesystem_model resolved
  | .error e => .error e

/-- Modelled from the spec: the byte layout produced by
`gpt::create_gpt_disk` from the FAT partition bytes: protective MBR
sector, primary GPT header sector, primary partition-array sectors,
alignment padding up to the 1 MiB data region, the FAT partition rounded
up to a sector boundary, then the backup partition array and backup
header.  The GUIDs and header fields are deterministic placeholders, so
the image is a pure function of the partition bytes. -/
def create_gpt_disk_bytes (fat : Bytes) : Bytes :=
  let protectiveMbr := List.replicate 512 0
  let primaryHeader := List.replicate 512 1
  let partitionArray := List.replicate (32 * 512) 2
  let alignmentPad := List.replicate (2048 * 512 - (2 + 32) * 512) 0
  let backupArray := List.replicate (32 * 512) 2
  let backupHeader := List.replicate 512 1
  protectiveMbr ++ primaryHeader ++ partitionArray ++ alignmentPad ++
    padToSector fat ++ backupArray ++ backupHeader

/-- Modelled from the spec: `gpt::create_gpt_disk` (the `gpt` module is
not among the sources): read the FAT partition file and wrap it in a GPT
disk image; fail when the partition file is unreadable. -/
def create_gpt_disk_model (fs : FS) (fat_partition_path : String) :
    BuildResult Bytes :=
  match fs fat_partition_path with
  | none => .error ⟨[], "FAT partition file unreadable"⟩
  | some fat => .ok (create_gpt_disk_bytes fat)

/-- Modelled from the spec: `mbr::create_mbr_disk` (the `mbr` module is
not among the sources): validate that the boot sector is exactly 512
bytes ending in the 0x55 0xAA signature, then lay out boot sector,
second stage padded to whole sectors, and the FAT partition. -/
def create_mbr_disk_model (fs : FS)
    (boot_sector_path second_stage_path fat_partition_path : String) :
    BuildResult Bytes :=
  match fs boot_sector_path with
  | none => .error ⟨[], "boot sector unreadable"⟩
  | some bs =>
    if bs.length = 512 ∧ bs.getD 510 0 = 85 ∧ bs.getD 511 0 = 170 then
      match fs second_stage_path with
      | none => .error ⟨[], "second stage unreadable"⟩
      | some ss =>
        match fs fat_partition_path with
        | none => .error ⟨[], "FAT partition file unreadable"⟩
        | some fat => .ok (bs ++ padToSector ss ++ padToSector fat)
    else
      .error ⟨[], "boot sector malformed"⟩

/-- Modelled from the spec: `pxe::create_uefi_tftp_folder` (the `pxe`
module is not among the sources): copy the UEFI bootloader and the kernel
binary, yielding the pair of byte blobs placed under the fixed PXE
filename and the fixed kernel filename inside the output folder. -/
def create_uefi_tftp_folder_model (fs : FS)
    (bootloader_path kernel_path : String) : BuildResult (Bytes × Bytes) :=
  match fs bootloader_path with
  | none => .error ⟨[], "bootloader unreadable"⟩
  | some b =>
    match fs kernel_path with
    | none => .error ⟨[], "kernel unreadable"⟩
    | some k => .ok (b, k)

/-- Modelled from the spec: the commit discipline of a builder run
("build into a temporary file + atomic rename/commit").  `compute` reads
the sources out of the file system and produces the image bytes; on
success the image appears at `out`, on failure the temporary file is
discarded and the file system — in particular the final output path — is
left exactly as it was. -/
def runImageBuilder (compute : FS → BuildResult Bytes) (out : String)
    (fs : FS) : FS × BuildResult Unit :=
  match compute fs with
  | .ok img => (fun p => if p = out then some img else fs p, .ok ())
  | .error e => (fs, .error e)

/-- Modelled from the spec: a run of the PXE folder builder: on success
the UEFI bootloader blob appears under the fixed PXE filename
`bootloader` and the kernel blob under the fixed kernel filename inside
the output directory; on failure the file system is untouched. -/
def runTftpFolderBuilder (compute : FS → BuildResult (Bytes × Bytes))
    (out_dir : String) (fs : FS) : FS × BuildResult Unit :=
  match compute fs with
  | .ok bk =>
    (fun p =>
      if p = out_dir ++ "/bootloader" then some bk.1
      else if p = out_dir ++ "/" ++ KERNEL_FILE_NAME then some bk.2
      else fs p, .ok ())
  | .error e => (fs, .error e)

/-- A full run of the spec-modelled FAT builder on a file system. -/
def runFatBuilder (files : List (String × String)) (out : String)
    (fs : FS) : FS × BuildResult Unit :=
  runImageBuilder (fun g => create_fat_filesystem_fs g files) out fs

/-- A full run of the spec-modelled GPT builder on a file system. -/
def runGptBuilder (boot_partition_path out : String) (fs : FS) :
    FS × BuildResult Unit :=
  runImageBuilder (fun g => create_gpt_disk_model g boot_partition_path)
    out fs

/-- A full run of the spec-modelled MBR builder on a file system. -/
def runMbrBuilder (boot_sector_path second_stage_path fat_partition_path
    out : String) (fs : FS) : FS × BuildResult Unit :=
  runImageBuilder
    (fun g => create_mbr_disk_model g boot_sector_path second_stage_path
      fat_partition_path) out fs

/-- A full run of the spec-modelled PXE folder builder on a file
system. -/
def runPxeBuilder (bootloader_path kernel_path out_dir : String)
    (fs : FS) : FS × BuildResult Unit :=
  runTftpFolderBuilder
    (fun g => create_uefi_tftp_folder_model g bootloader_path kernel_path)
    out_dir fs

/-! ## Lemmas about the `BTreeMap` model -/

lemma boot_partition_files_eq (env : CompileEnv) (k : String) :
    boot_partition_files env k =
      [("efi/boot/bootx64.efi", env.UEFI_BOOTLOADER_PATH),
       ("kernel-x86_64", k)] := by
  simp [boot_partition_files, btreeInsert, KERNEL_FILE_NAME]
  decide

lemma btreeInsert_head [LinearOrder α] (k : α) (v : β) (l : List (α × β)) :
    (btreeInsert k v l).head? = some (k, v) ∨
      (btreeInsert k v l).head? = l.head? := by
  cases l with
  | nil => left; rfl
  | cons hd tl =>
    obtain ⟨k', v'⟩ := hd
    simp only [btreeInsert]
    by_cases h1 : k < k'
    · rw [if_pos h1]; left; rfl
    · rw [if_neg h1]
      by_cases h2 : k = k'
      · rw [if_pos h2]; left; rfl
      · rw [if_neg h2]; right; rfl

lemma keysSorted_btreeInsert [LinearOrder α] (k : α) (v : β) :
    ∀ l : List (α × β), keysSorted l → keysSorted (btreeInsert k v l) := by
  intro l
  induction l with
  | nil =>
    intro _
    simp [btreeInsert, keysSorted]
  | cons hd tl ih =>
    intro hs
    obtain ⟨k', v'⟩ := hd
    rw [keysSorted, List.chain'_cons'] at hs
    simp only [btreeInsert]
    rcases lt_trichotomy k k' with h | h | h
    · rw [if_pos h]
      rw [keysSorted, List.chain'_cons]
      refine ⟨h, ?_⟩
      rw [List.chain'_cons']
      exact hs
    · rw [if_neg (by simp [h]), if_pos h]
      subst h
      rw [keysSorted, List.chain'_cons']
      exact hs
    · rw [if_neg (by exact not_lt.mpr h.le), if_neg (by exact fun he => absurd he.symm h.ne)]
      rw [keysSorted, List.chain'_cons']
      constructor
      · intro y hy
        rcases btreeInsert_head k v tl with he | he
        · rw [he] at hy
          cases hy
          exact h
        · rw [he] at hy
          exact hs.1 y hy
      · exact ih hs.2

lemma keysSorted_pairwise [LinearOrder α] :
    ∀ l : List (α × β), keysSorted l → l.Pairwise (fun a b => a.1 < b.1) := by
  intro l
  induction l with
  | nil => intro _; simp
  | cons hd tl ih =>
    intro h
    rw [keysSorted, List.chain'_cons'] at h
    have htl := ih h.2
    refine List.Pairwise.cons ?_ htl
    intro p hp
    cases tl with
    | nil => cases hp
    | cons q tl' =>
      have hq : hd.1 < q.1 := h.1 q rfl
      rcases List.mem_cons.mp hp with rfl | hp'
      · exact hq
      · exact lt_trans hq ((List.pairwise_cons.mp htl).1 p hp')

lemma keysSorted_nodup [LinearOrder α] (l : List (α × β))
    (h : keysSorted l) : (l.map Prod.fst).Nodup := by
  have hp := keysSorted_pairwise l h
  rw [List.Nodup, List.pairwise_map]
  exact hp.imp (fun hlt => ne_of_lt hlt)

/-- Building a modelled `BTreeMap` from a list of key-value pairs,
inserting the last pair first (so the head of the list is the most recent
insertion, as with repeated `BTreeMap::insert` calls read top to bottom in
reverse). -/
def btreeOfList [LinearOrder α] (pairs : List (α × β)) : List (α × β) :=
  pairs.foldr (fun p m => btreeInsert p.1 p.2 m) []

lemma keysSorted_btreeOfList [LinearOrder α] (pairs : List (α × β)) :
    keysSorted (btreeOfList pairs) := by
  induction pairs with
  | nil => simp [btreeOfList, keysSorted]
  | cons p rest ih => exact keysSorted_btreeInsert p.1 p.2 _ ih

lemma btreeInsert_perm [LinearOrder α] (k : α) (v : β) :
    ∀ l : List (α × β), k ∉ l.map Prod.fst →
      List.Perm (btreeInsert k v l) ((k, v) :: l) := by
  intro l
  induction l with
  | nil => intro _; exact List.Perm.refl _
  | cons hd tl ih =>
    intro hk
    obtain ⟨k', v'⟩ := hd
    simp only [List.map_cons, List.mem_cons] at hk
    push_neg at hk
    simp only [btreeInsert]
    by_cases h1 : k < k'
    · rw [if_pos h1]
    · rw [if_neg h1, if_neg hk.1]
      exact ((ih hk.2).cons (k', v')).trans (List.Perm.swap (k, v) (k', v') tl)

lemma btreeOfList_perm [LinearOrder α] (pairs : List (α × β))
    (h : (pairs.map Prod.fst).Nodup) :
    List.Perm (btreeOfList pairs) pairs := by
  induction pairs with
  | nil => exact List.Perm.refl _
  | cons p rest ih =>
    simp only [List.map_cons, List.nodup_cons] at h
    have hrest := ih h.2
    have hkeys : p.1 ∉ (btreeOfList rest).map Prod.fst := by
      intro hmem
      exact h.1 ((hrest.map Prod.fst).mem_iff.mp hmem)
    exact (btreeInsert_perm p.1 p.2 _ hkeys).trans (hrest.cons p)

/-- Two modelled `BTreeMap`s built from the same distinct-keyed pairs in
any two insertion orders are equal. -/
lemma btreeOfList_eq_of_perm [LinearOrder α] (pairs1 pairs2 : List (α × β))
    (h : (pairs1.map Prod.fst).Nodup) (hp : List.Perm pairs1 pairs2) :
    btreeOfList pairs1 = btreeOfList pairs2 := by
  haveI : IsAntisymm (α × β) (fun a b => a.1 < b.1) :=
    ⟨fun a b hab hba => absurd (lt_trans hab hba) (lt_irrefl _)⟩
  have h2 : (pairs2.map Prod.fst).Nodup := ((hp.map Prod.fst).nodup_iff).mp h
  have s1 : (btreeOfList pairs1).Sorted (fun a b => a.1 < b.1) :=
    keysSorted_pairwise _ (keysSorted_btreeOfList pairs1)
  have s2 : (btreeOfList pairs2).Sorted (fun a b => a.1 < b.1) :=
    keysSorted_pairwise _ (keysSorted_btreeOfList pairs2)
  exact List.eq_of_perm_of_sorted
    (((btreeOfList_perm pairs1 h).trans hp).trans
      (btreeOfList_perm pairs2 h2).symm) s1 s2

/-! ## Lemmas about the spec-modelled builders -/

lemma padToSector_length_mod (b : Bytes) :
    (padToSector b).length % 512 = 0 := by
  simp only [padToSector, List.length_append, List.length_replicate]
  omega

lemma fatPayload_length_mod (files : List (String × Bytes)) :
    (fatPayload files).length % 512 = 0 := by
  induction files with
  | nil => simp [fatPayload]
  | cons f rest ih =>
    simp only [fatPayload, List.foldr_cons, List.length_append] at ih ⊢
    have := padToSector_length_mod f.2
    omega

/-- A builder computation reads only the file-system paths in `S`: its
result is the same on any two file systems agreeing on `S`. -/
def readsOnly (compute : FS → BuildResult α) (S : List String) : Prop :=
  ∀ fs fs' : FS, (∀ p ∈ S, fs p = fs' p) → compute fs = compute fs'

lemma gpt_readsOnly (bp : String) :
    readsOnly (fun fs => create_gpt_disk_model fs bp) [bp] := by
  intro fs fs' h
  simp only [create_gpt_disk_model, h bp (by simp)]

lemma mbr_readsOnly (bsp ssp fatp : String) :
    readsOnly (fun fs => create_mbr_disk_model fs bsp ssp fatp)
      [bsp, ssp, fatp] := by
  intro fs fs' h
  simp only [create_mbr_disk_model, h bsp (by simp), h ssp (by simp),
    h fatp (by simp)]

lemma pxe_readsOnly (blp kp : String) :
    readsOnly (fun fs => create_uefi_tftp_folder_model fs blp kp) [blp, kp] := by
  intro fs fs' h
  simp only [create_uefi_tftp_folder_model, h blp (by simp), h kp (by simp)]

lemma resolveFiles_readsOnly (files : List (String × String)) :
    ∀ fs fs' : FS, (∀ p ∈ files.map Prod.snd, fs p = fs' p) →
      resolveFiles fs files = resolveFiles fs' files := by
  induction files with
  | nil => intro fs fs' _; rfl
  | cons f rest ih =>
    intro fs fs' h
    obtain ⟨dest, src⟩ := f
    simp only [resolveFiles, h src (by simp),
      ih fs fs' (fun p hp => h p (by simp [hp]))]

lemma fat_readsOnly (files : List (String × String)) :
    readsOnly (fun fs => create_fat_filesystem_fs fs files)
      (files.map Prod.snd) := by
  intro fs fs' h
  simp only [create_fat_filesystem_fs, resolveFiles_readsOnly files fs fs' h]

/-- The post-state of a builder run agrees with the pre-state everywhere
except possibly at the output path. -/
lemma runImageBuilder_preserves (compute : FS → BuildResult Bytes)
    (out : String) (fs : FS) (p : String) (hp : p ≠ out) :
    (runImageBuilder compute out fs).1 p = fs p := by
  unfold runImageBuilder
  cases compute fs with
  | ok img => simp [hp]
  | error e => rfl

/-- Running a builder whose computation reads only paths distinct from the
output path a second time reproduces the first run: same bytes at the
output path, same result. -/
lemma runImageBuilder_idem (compute : FS → BuildResult Bytes)
    (S : List String) (out : String) (fs : FS)
    (hro : readsOnly compute S) (hout : out ∉ S) :
    (runImageBuilder compute out
        (runImageBuilder compute out fs).1).1 out
      = (runImageBuilder compute out fs).1 out ∧
    (runImageBuilder compute out
        (runImageBuilder compute out fs).1).2
      = (runImageBuilder compute out fs).2 := by
  have hagree : ∀ p ∈ S, (runImageBuilder compute out fs).1 p = fs p :=
    fun p hp => runImageBuilder_preserves compute out fs p
      (fun he => hout (he ▸ hp))
  have hcc : compute (runImageBuilder compute out fs).1 = compute fs :=
    hro _ _ hagree
  cases h : compute fs with
  | ok img =>
    have h1 : runImageBuilder compute out fs
        = (fun p => if p = out then some img else fs p, .ok ()) := by
      simp [runImageBuilder, h]
    rw [h1, h] at hcc
    rw [h1]
    constructor
    · simp [runImageBuilder, hcc]
    · simp [runImageBuilder, hcc]
  | error e =>
    have h1 : runImageBuilder compute out fs = (fs, .error e) := by
      simp [runImageBuilder, h]
    rw [h1]
    constructor
    · simp [runImageBuilder, h]
    · simp [runImageBuilder, h]

/-- The post-state of a PXE folder builder run agrees with the pre-state
everywhere except possibly at the two written paths. -/
lemma runTftpFolderBuilder_preserves
    (compute : FS → BuildResult (Bytes × Bytes)) (out_dir : String)
    (fs : FS) (p : String) (hp1 : p ≠ out_dir ++ "/bootloader")
    (hp2 : p ≠ out_dir ++ "/" ++ KERNEL_FILE_NAME) :
    (runTftpFolderBuilder compute out_dir fs).1 p = fs p := by
  unfold runTftpFolderBuilder
  cases compute fs with
  | ok bk => simp [hp1, hp2]
  | error e => rfl

/-- Running the PXE folder builder a second time reproduces the first
run, provided the written paths are distinct from the paths it reads. -/
lemma runTftpFolderBuilder_idem
    (compute : FS → BuildResult (Bytes × Bytes)) (S : List String)
    (out_dir : String) (fs : FS) (hro : readsOnly compute S)
    (h1 : out_dir ++ "/bootloader" ∉ S)
    (h2 : out_dir ++ "/" ++ KERNEL_FILE_NAME ∉ S) :
    (runTftpFolderBuilder compute out_dir
        (runTftpFolderBuilder compute out_dir fs).1).1
      = (runTftpFolderBuilder compute out_dir fs).1 ∧
    (runTftpFolderBuilder compute out_dir
        (runTftpFolderBuilder compute out_dir fs).1).2
      = (runTftpFolderBuilder compute out_dir fs).2 := by
  have hagree : ∀ p ∈ S,
      (runTftpFolderBuilder compute out_dir fs).1 p = fs p :=
    fun p hp => runTftpFolderBuilder_preserves compute out_dir fs p
      (fun he => h1 (he ▸ hp)) (fun he => h2 (he ▸ hp))
  have hcc : compute (runTftpFolderBuilder compute out_dir fs).1
      = compute fs := hro _ _ hagree
  cases h : compute fs with
  | ok bk =>
    have hfs1 : runTftpFolderBuilder compute out_dir fs
        = (fun p =>
            if p = out_dir ++ "/bootloader" then some bk.1
            else if p = out_dir ++ "/" ++ KERNEL_FILE_NAME then some bk.2
            else fs p, .ok ()) := by
      simp [runTftpFolderBuilder, h]
    rw [hfs1, h] at hcc
    rw [hfs1]
    constructor
    · funext p
      simp only [runTftpFolderBuilder, hcc]
      by_cases hb : p = out_dir ++ "/bootloader"
      · simp [hb]
      · by_cases hk : p = out_dir ++ "/" ++ KERNEL_FILE_NAME
        · simp [hb, hk]
        · simp [hb, hk]
    · simp [runTftpFolderBuilder, hcc]
  | error e =>
    have hfs1 : runTftpFolderBuilder compute out_dir fs = (fs, .error e) := by
      simp [runTftpFolderBuilder, h]
    rw [hfs1]
    constructor
    · simp [runTftpFolderBuilder, h]
    · simp [runTftpFolderBuilder, h]

/-- A builder record whose four builders all fail, used to exercise the
error-propagation theorems on concrete inputs. -/
def failingBuilders : Builders :=
  ⟨fun _ _ => .error ⟨[], "fat failed"⟩,
   fun _ _ => .error ⟨[], "gpt failed"⟩,
   fun _ _ _ _ => .error ⟨[], "mbr failed"⟩,
   fun _ _ _ => .error ⟨[], "pxe failed"⟩⟩

/-- A concrete assignment of the three compile-time path variables. -/
def sampleEnv : CompileEnv :=
  ⟨"uefi-bootloader.efi", "bios-boot-sector.bin", "bios-second-stage.bin"⟩

/-! ## The claims -/

/-- C1: `create_boot_partition` builds the FAT boot partition from exactly
two file entries — the UEFI bootloader binary under the destination path
`efi/boot/bootx64.efi` and the kernel binary under the fixed destination
name `kernel-x86_64` (the value of `KERNEL_FILE_NAME`) — and hands the FAT
builder that two-entry mapping and nothing else. -/
theorem create_boot_partition_exactly_two_entries (b : Builders)
    (env : CompileEnv) (kernel_binary out_path : String) :
    KERNEL_FILE_NAME = "kernel-x86_64" ∧
    create_boot_partition b env kernel_binary out_path =
      contextualize "failed to create UEFI FAT filesystem"
        (b.create_fat_filesystem
          [("efi/boot/bootx64.efi", env.UEFI_BOOTLOADER_PATH),
           ("kernel-x86_64", kernel_binary)] out_path) := by
  refine ⟨rfl, ?_⟩
  have hf : btreeInsert KERNEL_FILE_NAME kernel_binary
      (btreeInsert "efi/boot/bootx64.efi" env.UEFI_BOOTLOADER_PATH []) =
      [("efi/boot/bootx64.efi", env.UEFI_BOOTLOADER_PATH),
       ("kernel-x86_64", kernel_binary)] :=
    boot_partition_files_eq env kernel_binary
  simp only [create_boot_partition, hf]
  cases hx : b.create_fat_filesystem
      [("efi/boot/bootx64.efi", env.UEFI_BOOTLOADER_PATH),
       ("kernel-x86_64", kernel_binary)] out_path with
  | ok a => rfl
  | error e => rfl

/-- C2: each public build operation returns `Ok(())` exactly when its
underlying builder succeeds; on failure it returns the builder's error
wrapped once with the context message naming the failing stage. -/
theorem orchestrators_propagate_first_error (b : Builders)
    (env : CompileEnv)
    (kernel_binary boot_partition_path out_path : String) :
    ((create_boot_partition b env kernel_binary out_path = .ok () ↔
        b.create_fat_filesystem
          [("efi/boot/bootx64.efi", env.UEFI_BOOTLOADER_PATH),
           ("kernel-x86_64", kernel_binary)] out_path = .ok ()) ∧
      ∀ e : BuildError,
        b.create_fat_filesystem
            [("efi/boot/bootx64.efi", env.UEFI_BOOTLOADER_PATH),
             ("kernel-x86_64", kernel_binary)] out_path = .error e →
          create_boot_partition b env kernel_binary out_path =
            .error ⟨"failed to create UEFI FAT filesystem" :: e.contexts,
              e.root⟩) ∧
    ((create_uefi_disk_image b boot_partition_path out_path = .ok () ↔
        b.create_gpt_disk boot_partition_path out_path = .ok ()) ∧
      ∀ e : BuildError,
        b.create_gpt_disk boot_partition_path out_path = .error e →
          create_uefi_disk_image b boot_partition_path out_path =
            .error ⟨"failed to create UEFI GPT disk image" :: e.contexts,
              e.root⟩) ∧
    ((create_bios_disk_image b env boot_partition_path out_path = .ok () ↔
        b.create_mbr_disk env.BIOS_BOOT_SECTOR_PATH
          env.BIOS_SECOND_STAGE_PATH boot_partition_path out_path
          = .ok ()) ∧
      ∀ e : BuildError,
        b.create_mbr_disk env.BIOS_BOOT_SECTOR_PATH
            env.BIOS_SECOND_STAGE_PATH boot_partition_path out_path
            = .error e →
          create_bios_disk_image b env boot_partition_path out_path =
            .error ⟨"failed to create BIOS MBR disk image" :: e.contexts,
              e.root⟩) ∧
    ((create_uefi_pxe_tftp_folder b env kernel_binary out_path = .ok () ↔
        b.create_uefi_tftp_folder env.UEFI_BOOTLOADER_PATH kernel_binary
          out_path = .ok ()) ∧
      ∀ e : BuildError,
        b.create_uefi_tftp_folder env.UEFI_BOOTLOADER_PATH kernel_binary
            out_path = .error e →
          create_uefi_pxe_tftp_folder b env kernel_binary out_path =
            .error ⟨"failed to create UEFI PXE tftp folder" :: e.contexts,
              e.root⟩) := by
  have hf : btreeInsert KERNEL_FILE_NAME kernel_binary
      (btreeInsert "efi/boot/bootx64.efi" env.UEFI_BOOTLOADER_PATH []) =
      [("efi/boot/bootx64.efi", env.UEFI_BOOTLOADER_PATH),
       ("kernel-x86_64", kernel_binary)] :=
    boot_partition_files_eq env kernel_binary
  refine ⟨⟨?_, ?_⟩, ⟨?_, ?_⟩, ⟨?_, ?_⟩, ⟨?_, ?_⟩⟩
  · simp only [create_boot_partition, hf]
    cases hx : b.create_fat_filesystem
        [("efi/boot/bootx64.efi", env.UEFI_BOOTLOADER_PATH),
         ("kernel-x86_64", kernel_binary)] out_path with
    | ok a => cases a; simp [contextualize]
    | error e => simp [contextualize]
  · intro e he
    simp only [create_boot_partition, hf, he]
    rfl
  · simp only [create_uefi_disk_image]
    cases hx : b.create_gpt_disk boot_partition_path out_path with
    | ok a => cases a; simp [contextualize]
    | error e => simp [contextualize]
  · intro e he
    simp only [create_uefi_disk_image, he]
    rfl
  · simp only [create_bios_disk_image]
    cases hx : b.create_mbr_disk env.BIOS_BOOT_SECTOR_PATH
        env.BIOS_SECOND_STAGE_PATH boot_partition_path out_path with
    | ok a => cases a; simp [contextualize]
    | error e => simp [contextualize]
  · intro e he
    simp only [create_bios_disk_image, he]
    rfl
  · simp only [create_uefi_pxe_tftp_folder]
    cases hx : b.create_uefi_tftp_folder env.UEFI_BOOTLOADER_PATH
        kernel_binary out_path with
    | ok a => cases a; simp [contextualize]
    | error e => simp [contextualize]
  · intro e he
    simp only [create_uefi_pxe_tftp_folder, he]
    rfl

/-- Witness for C2: with a FAT builder that fails with root cause
`fat failed`, `create_boot_partition` returns exactly that error wrapped
with the FAT stage's context message. -/
theorem orchestrators_propagate_first_error_witness :
    create_boot_partition failingBuilders sampleEnv "kernel" "out" =
      .error ⟨["failed to create UEFI FAT filesystem"], "fat failed"⟩ :=
  (orchestrators_propagate_first_error failingBuilders sampleEnv
    "kernel" "bp" "out").1.2 ⟨[], "fat failed"⟩ rfl

/-- A failed single-image builder run leaves the file system exactly as
it was. -/
lemma runImageBuilder_error_preserves
    (compute : FS → BuildResult Bytes) (out : String) (fs : FS)
    (e : BuildError)
    (h : (runImageBuilder compute out fs).2 = .error e) :
    (runImageBuilder compute out fs).1 = fs := by
  unfold runImageBuilder at h ⊢
  cases hc : compute fs with
  | ok img => rw [hc] at h; exact absurd h (by simp)
  | error e2 => rfl

/-- A failed PXE folder builder run leaves the file system — including
both of the folder's output paths — exactly as it was. -/
lemma runTftpFolderBuilder_error_preserves
    (compute : FS → BuildResult (Bytes × Bytes)) (out_dir : String)
    (fs : FS) (e : BuildError)
    (h : (runTftpFolderBuilder compute out_dir fs).2 = .error e) :
    (runTftpFolderBuilder compute out_dir fs).1 = fs := by
  unfold runTftpFolderBuilder at h ⊢
  cases hc : compute fs with
  | ok bk => rw [hc] at h; exact absurd h (by simp)
  | error e2 => rfl

/-- C3: for every one of the four builders, a failed run leaves the file
system — in particular every requested final output path — exactly as it
was: no partially-written output file is ever visible at a final path. -/
theorem builder_failure_leaves_final_path_untouched :
    (∀ (files : List (String × String)) (out : String) (fs : FS)
        (e : BuildError),
      (runFatBuilder files out fs).2 = .error e →
        (runFatBuilder files out fs).1 = fs) ∧
    (∀ (bp out : String) (fs : FS) (e : BuildError),
      (runGptBuilder bp out fs).2 = .error e →
        (runGptBuilder bp out fs).1 = fs) ∧
    (∀ (bsp ssp fatp out : String) (fs : FS) (e : BuildError),
      (runMbrBuilder bsp ssp fatp out fs).2 = .error e →
        (runMbrBuilder bsp ssp fatp out fs).1 = fs) ∧
    (∀ (blp kp dir : String) (fs : FS) (e : BuildError),
      (runPxeBuilder blp kp dir fs).2 = .error e →
        (runPxeBuilder blp kp dir fs).1 = fs) := by
  refine ⟨?_, ?_, ?_, ?_⟩
  · intro files out fs e h
    exact runImageBuilder_error_preserves _ out fs e h
  · intro bp out fs e h
    exact runImageBuilder_error_preserves _ out fs e h
  · intro bsp ssp fatp out fs e h
    exact runImageBuilder_error_preserves _ out fs e h
  · intro blp kp dir fs e h
    exact runTftpFolderBuilder_error_preserves _ dir fs e h

/-- Witness for C3: on the empty file system each of the four builders
fails (its sources are unreadable) and leaves the file system
untouched. -/
theorem builder_failure_leaves_final_path_untouched_witness :
    (runFatBuilder [("a", "src")] "out" (fun _ => none)).1
      = (fun _ => none) ∧
    (runGptBuilder "bp" "out" (fun _ => none)).1 = (fun _ => none) ∧
    (runMbrBuilder "bs" "ss" "fat" "out" (fun _ => none)).1
      = (fun _ => none) ∧
    (runPxeBuilder "bl" "k" "tftp" (fun _ => none)).1 = (fun _ => none) :=
  ⟨builder_failure_leaves_final_path_untouched.1 [("a", "src")] "out"
      (fun _ => none) ⟨[], "source unreadable"⟩ rfl,
   builder_failure_leaves_final_path_untouched.2.1 "bp" "out"
      (fun _ => none) ⟨[], "FAT partition file unreadable"⟩ rfl,
   builder_failure_leaves_final_path_untouched.2.2.1 "bs" "ss" "fat"
      "out" (fun _ => none) ⟨[], "boot sector unreadable"⟩ rfl,
   builder_failure_leaves_final_path_untouched.2.2.2 "bl" "k" "tftp"
      (fun _ => none) ⟨[], "bootloader unreadable"⟩ rfl⟩

/-- C4: every FAT image the FAT builder accepts to produce has a total
length that is an exact multiple of 512 bytes. -/
theorem fat_image_length_multiple_of_512 (files : List (String × Bytes))
    (img : Bytes) (h : create_fat_filesystem_model files = .ok img) :
    img.length % 512 = 0 := by
  unfold create_fat_filesystem_model at h
  split at h
  · injection h with h2
    subst h2
    simp only [List.length_append, List.length_replicate]
    have t1 : (fatTableBytes files).length % 512 = 0 :=
      padToSector_length_mod _
    have t2 : (fatRootDirBytes files).length % 512 = 0 :=
      padToSector_length_mod _
    have t3 := fatPayload_length_mod files
    omega
  · exact absurd h (by simp)

set_option maxRecDepth 4000 in
/-- Witness for C4: the FAT builder on the empty input set produces the
512-byte minimal volume, a multiple of 512. -/
theorem fat_image_length_multiple_of_512_witness :
    create_fat_filesystem_model [] = .ok (List.replicate 512 0) ∧
    (List.replicate 512 0 : Bytes).length % 512 = 0 :=
  ⟨rfl, fat_image_length_multiple_of_512 [] (List.replicate 512 0) rfl⟩

/-- C5: running any of the four builders twice with identical inputs and
output paths produces byte-identical outputs (the modelled GUIDs and
timestamps are fixed): as long as the output path is not also an input
path, the second run reproduces the first run's output bytes and
result. -/
theorem builders_run_twice_identical :
    (∀ (files : List (String × String)) (out : String) (fs : FS),
        out ∉ files.map Prod.snd →
        (runFatBuilder files out (runFatBuilder files out fs).1).1 out
            = (runFatBuilder files out fs).1 out ∧
          (runFatBuilder files out (runFatBuilder files out fs).1).2
            = (runFatBuilder files out fs).2) ∧
    (∀ (bp out : String) (fs : FS), out ∉ [bp] →
        (runGptBuilder bp out (runGptBuilder bp out fs).1).1 out
            = (runGptBuilder bp out fs).1 out ∧
          (runGptBuilder bp out (runGptBuilder bp out fs).1).2
            = (runGptBuilder bp out fs).2) ∧
    (∀ (bsp ssp fatp out : String) (fs : FS), out ∉ [bsp, ssp, fatp] →
        (runMbrBuilder bsp ssp fatp out
              (runMbrBuilder bsp ssp fatp out fs).1).1 out
            = (runMbrBuilder bsp ssp fatp out fs).1 out ∧
          (runMbrBuilder bsp ssp fatp out
              (runMbrBuilder bsp ssp fatp out fs).1).2
            = (runMbrBuilder bsp ssp fatp out fs).2) ∧
    (∀ (blp kp dir : String) (fs : FS),
        dir ++ "/bootloader" ∉ [blp, kp] →
        dir ++ "/" ++ KERNEL_FILE_NAME ∉ [blp, kp] →
        (runPxeBuilder blp kp dir (runPxeBuilder blp kp dir fs).1).1
            = (runPxeBuilder blp kp dir fs).1 ∧
          (runPxeBuilder blp kp dir (runPxeBuilder blp kp dir fs).1).2
            = (runPxeBuilder blp kp dir fs).2) := by
  refine ⟨?_, ?_, ?_, ?_⟩
  · intro files out fs hout
    exact runImageBuilder_idem _ (files.map Prod.snd) out fs
      (fat_readsOnly files) hout
  · intro bp out fs hout
    exact runImageBuilder_idem _ [bp] out fs (gpt_readsOnly bp) hout
  · intro bsp ssp fatp out fs hout
    exact runImageBuilder_idem _ [bsp, ssp, fatp] out fs
      (mbr_readsOnly bsp ssp fatp) hout
  · intro blp kp dir fs h1 h2
    exact runTftpFolderBuilder_idem _ [blp, kp] dir fs
      (pxe_readsOnly blp kp) h1 h2

/-- Witness for C5: each of the four builders, run twice at concrete
paths over the empty file system, reproduces its first run. -/
theorem builders_run_twice_identical_witness :
    ((runFatBuilder [("kernel-x86_64", "ksrc")] "fat.img"
          (runFatBuilder [("kernel-x86_64", "ksrc")] "fat.img"
            (fun _ => none)).1).1 "fat.img"
        = (runFatBuilder [("kernel-x86_64", "ksrc")] "fat.img"
            (fun _ => none)).1 "fat.img" ∧
      (runFatBuilder [("kernel-x86_64", "ksrc")] "fat.img"
          (runFatBuilder [("kernel-x86_64", "ksrc")] "fat.img"
            (fun _ => none)).1).2
        = (runFatBuilder [("kernel-x86_64", "ksrc")] "fat.img"
            (fun _ => none)).2) ∧
    ((runGptBuilder "fat.img" "gpt.img"
          (runGptBuilder "fat.img" "gpt.img" (fun _ => none)).1).1 "gpt.img"
        = (runGptBuilder "fat.img" "gpt.img" (fun _ => none)).1 "gpt.img" ∧
      (runGptBuilder "fat.img" "gpt.img"
          (runGptBuilder "fat.img" "gpt.img" (fun _ => none)).1).2
        = (runGptBuilder "fat.img" "gpt.img" (fun _ => none)).2) ∧
    ((runMbrBuilder "bs.bin" "ss.bin" "fat.img" "mbr.img"
          (runMbrBuilder "bs.bin" "ss.bin" "fat.img" "mbr.img"
            (fun _ => none)).1).1 "mbr.img"
        = (runMbrBuilder "bs.bin" "ss.bin" "fat.img" "mbr.img"
            (fun _ => none)).1 "mbr.img" ∧
      (runMbrBuilder "bs.bin" "ss.bin" "fat.img" "mbr.img"
          (runMbrBuilder "bs.bin" "ss.bin" "fat.img" "mbr.img"
            (fun _ => none)).1).2
        = (runMbrBuilder "bs.bin" "ss.bin" "fat.img" "mbr.img"
            (fun _ => none)).2) ∧
    ((runPxeBuilder "bl.efi" "k.bin" "tftp"
          (runPxeBuilder "bl.efi" "k.bin" "tftp" (fun _ => none)).1).1
        = (runPxeBuilder "bl.efi" "k.bin" "tftp" (fun _ => none)).1 ∧
      (runPxeBuilder "bl.efi" "k.bin" "tftp"
          (runPxeBuilder "bl.efi" "k.bin" "tftp" (fun _ => none)).1).2
        = (runPxeBuilder "bl.efi" "k.bin" "tftp" (fun _ => none)).2) :=
  ⟨builders_run_twice_identical.1 [("kernel-x86_64", "ksrc")] "fat.img"
      (fun _ => none) (by decide),
   builders_run_twice_identical.2.1 "fat.img" "gpt.img" (fun _ => none)
      (by decide),
   builders_run_twice_identical.2.2.1 "bs.bin" "ss.bin" "fat.img"
      "mbr.img" (fun _ => none) (by decide),
   builders_run_twice_identical.2.2.2 "bl.efi" "k.bin" "tftp"
      (fun _ => none) (by decide) (by decide)⟩

/-- C6: the mapping handed to the FAT builder has unique destination
paths: the two concrete keys are distinct, the concrete mapping's key
list has no duplicates, and inserting into any sorted modelled
`BTreeMap` keeps keys duplicate-free. -/
theorem boot_partition_destination_paths_unique (env : CompileEnv)
    (kernel_binary : String) :
    ((boot_partition_files env kernel_binary).map Prod.fst).Nodup ∧
    ("efi/boot/bootx64.efi" : String) ≠ KERNEL_FILE_NAME ∧
    (∀ (k v : String) (l : List (String × String)), keysSorted l →
      ((btreeInsert k v l).map Prod.fst).Nodup) := by
  refine ⟨?_, by decide, ?_⟩
  · rw [boot_partition_files_eq]
    simp
  · intro k v l hs
    exact keysSorted_nodup _ (keysSorted_btreeInsert k v l hs)

/-- Witness for C6: the unique-keys facts at a concrete environment and
a concrete insertion into the empty (sorted) map. -/
theorem boot_partition_destination_paths_unique_witness :
    ((boot_partition_files sampleEnv "kernel").map Prod.fst).Nodup ∧
    ((btreeInsert "a" "x" ([] : List (String × String))).map
      Prod.fst).Nodup :=
  ⟨(boot_partition_destination_paths_unique sampleEnv "kernel").1,
   (boot_partition_destination_paths_unique sampleEnv "kernel").2.2
     "a" "x" [] (by simp [keysSorted])⟩

/-- C7: the file mapping is an ordered associative container: its
enumeration is in strictly ascending key order, `efi/boot/bootx64.efi`
comes before `kernel-x86_64`, building a map from distinct-keyed pairs is
insertion-order independent, and in particular the two concrete entries
inserted in the opposite order give the same mapping. -/
theorem boot_partition_files_ordered (env : CompileEnv)
    (kernel_binary : String) :
    keysSorted (boot_partition_files env kernel_binary) ∧
    boot_partition_files env kernel_binary =
      [("efi/boot/bootx64.efi", env.UEFI_BOOTLOADER_PATH),
       ("kernel-x86_64", kernel_binary)] ∧
    (∀ pairs1 pairs2 : List (String × String),
        (pairs1.map Prod.fst).Nodup → List.Perm pairs1 pairs2 →
        btreeOfList pairs1 = btreeOfList pairs2) ∧
    btreeInsert "efi/boot/bootx64.efi" env.UEFI_BOOTLOADER_PATH
        (btreeInsert KERNEL_FILE_NAME kernel_binary []) =
      boot_partition_files env kernel_binary := by
  refine ⟨?_, boot_partition_files_eq env kernel_binary, ?_, ?_⟩
  · exact keysSorted_btreeInsert _ _ _
      (keysSorted_btreeInsert _ _ _ (by simp [keysSorted]))
  · exact fun p1 p2 h hp => btreeOfList_eq_of_perm p1 p2 h hp
  · rw [boot_partition_files_eq]
    simp [btreeInsert, KERNEL_FILE_NAME]
    decide

/-- Witness for C7: two concrete distinct-keyed pairs inserted in either
order give the same mapping. -/
theorem boot_partition_files_ordered_witness :
    btreeOfList [("a", "1"), ("b", "2")] =
      btreeOfList [("b", "2"), ("a", "1")] :=
  (boot_partition_files_ordered sampleEnv "kernel").2.2.1
    [("a", "1"), ("b", "2")] [("b", "2"), ("a", "1")] (by decide)
    (List.Perm.swap ("b", "2") ("a", "1") [])

/-- C8: `create_bios_disk_image` invokes the MBR builder with exactly
(boot sector path, second stage path, FAT partition path, output path) in
that order, `create_uefi_disk_image` invokes the GPT builder with (FAT
partition path, output path), and neither result depends on the FAT
builder — the already-built FAT partition is consumed, not rebuilt. -/
theorem disk_image_builders_consume_prebuilt_fat (b : Builders)
    (env : CompileEnv)
    (f : List (String × String) → String → BuildResult Unit)
    (boot_partition_path out_path : String) :
    create_bios_disk_image b env boot_partition_path out_path =
      contextualize "failed to create BIOS MBR disk image"
        (b.create_mbr_disk env.BIOS_BOOT_SECTOR_PATH
          env.BIOS_SECOND_STAGE_PATH boot_partition_path out_path) ∧
    create_uefi_disk_image b boot_partition_path out_path =
      contextualize "failed to create UEFI GPT disk image"
        (b.create_gpt_disk boot_partition_path out_path) ∧
    create_bios_disk_image { b with create_fat_filesystem := f } env
        boot_partition_path out_path
      = create_bios_disk_image b env boot_partition_path out_path ∧
    create_uefi_disk_image { b with create_fat_filesystem := f }
        boot_partition_path out_path
      = create_uefi_disk_image b boot_partition_path out_path := by
  refine ⟨?_, ?_, rfl, rfl⟩
  · simp only [create_bios_disk_image]
    cases hx : b.create_mbr_disk env.BIOS_BOOT_SECTOR_PATH
        env.BIOS_SECOND_STAGE_PATH boot_partition_path out_path with
    | ok a => rfl
    | error e => rfl
  · simp only [create_uefi_disk_image]
    cases hx : b.create_gpt_disk boot_partition_path out_path with
    | ok a => rfl
    | error e => rfl

/-- C9: the auxiliary boot binaries are fixed at compile time: every call
of `create_boot_partition` and `create_uefi_pxe_tftp_folder` uses the
bootloader at `UEFI_BOOTLOADER_PATH`, and every call of
`create_bios_disk_image` uses `BIOS_BOOT_SECTOR_PATH` and
`BIOS_SECOND_STAGE_PATH`; the caller's arguments never select them. -/
theorem aux_binaries_fixed_at_compile_time (b : Builders)
    (env : CompileEnv)
    (kernel_binary boot_partition_path out_path : String) :
    ("efi/boot/bootx64.efi", env.UEFI_BOOTLOADER_PATH)
        ∈ boot_partition_files env kernel_binary ∧
    create_uefi_pxe_tftp_folder b env kernel_binary out_path =
      contextualize "failed to create UEFI PXE tftp folder"
        (b.create_uefi_tftp_folder env.UEFI_BOOTLOADER_PATH kernel_binary
          out_path) ∧
    create_bios_disk_image b env boot_partition_path out_path =
      contextualize "failed to create BIOS MBR disk image"
        (b.create_mbr_disk env.BIOS_BOOT_SECTOR_PATH
          env.BIOS_SECOND_STAGE_PATH boot_partition_path out_path) := by
  refine ⟨?_, ?_, ?_⟩
  · rw [boot_partition_files_eq]
    simp
  · simp only [create_uefi_pxe_tftp_folder]
    cases hx : b.create_uefi_tftp_folder env.UEFI_BOOTLOADER_PATH
        kernel_binary out_path with
    | ok a => rfl
    | error e => rfl
  · simp only [create_bios_disk_image]
    cases hx : b.create_mbr_disk env.BIOS_BOOT_SECTOR_PATH
        env.BIOS_SECOND_STAGE_PATH boot_partition_path out_path with
    | ok a => rfl
    | error e => rfl

/-- C10: `create_uefi_disk_image` depends only on the boot partition path
and the output path: the GPT builder's product is determined by the boot
partition's contents alone, and the orchestrator call is unaffected by
every other builder (kernel and UEFI bootloader are not inputs). -/
theorem uefi_disk_image_depends_only_on_partition_contents
    (fs1 fs2 : FS) (bp1 bp2 : String) (h : fs1 bp1 = fs2 bp2) :
    create_gpt_disk_model fs1 bp1 = create_gpt_disk_model fs2 bp2 ∧
    (∀ (b : Builders)
        (f : List (String × String) → String → BuildResult Unit)
        (m : String → String → String → String → BuildResult Unit)
        (t : String → String → String → BuildResult Unit)
        (bp out : String),
      create_uefi_disk_image ⟨f, b.create_gpt_disk, m, t⟩ bp out
        = create_uefi_disk_image b bp out) := by
  refine ⟨?_, fun b f m t bp out => rfl⟩
  unfold create_gpt_disk_model
  rw [h]

/-- Witness for C10: two file systems holding the same partition bytes at
different paths yield the same GPT image. -/
theorem uefi_disk_image_depends_only_on_partition_contents_witness :
    create_gpt_disk_model
        (fun p => if p = "bp1" then some [1] else none) "bp1"
      = create_gpt_disk_model
        (fun p => if p = "bp2" then some [1] else none) "bp2" :=
  (uefi_disk_image_depends_only_on_partition_contents
    (fun p => if p = "bp1" then some [1] else none)
    (fun p => if p = "bp2" then some [1] else none) "bp1" "bp2"
    (by simp)).1
